import Mathlib

/-!
Verification development for the A2A task-orchestration core of the
Data-Science-Assistant repository: message envelope (backend/a2a/protocol.py),
tool registry (backend/mcp/tool_registry.py), executor agent
(backend/agents/executor_agent.py) and planner agent
(backend/agents/planner_agent.py), embedded shallowly in Lean.
-/

namespace A2A

/-- Python runtime values as they occur in message payloads, manifests and
tool inputs: None, bool, int, float, str, list, dict (insertion-ordered
association list, as Python dicts preserve insertion order). Floats are
modelled as rationals; only exact decimal literals occur in this code. -/
inductive PyVal where
  | vnone
  | vbool (b : Bool)
  | vint (n : Int)
  | vfloat (q : Rat)
  | vstr (s : String)
  | vlist (xs : List PyVal)
  | vdict (kvs : List (String × PyVal))

/-- Exact numeric value of a bool, int or float operand, as Python
cross-type numeric equality and comparison see it (True == 1 == 1.0). -/
def numValue : PyVal → Option Rat
  | .vbool b => some (if b then 1 else 0)
  | .vint n => some (n : Rat)
  | .vfloat q => some q
  | _ => none

mutual

/-- Python equality == on runtime values (used for dict-key comparison):
numeric operands compare by value across bool/int/float, everything else
compares structurally within its own type. -/
def beqVal : PyVal → PyVal → Bool
  | .vnone, .vnone => true
  | .vbool a, .vbool b => a == b
  | .vbool a, .vint b => (if a then (1 : Int) else 0) == b
  | .vbool a, .vfloat q => (if a then (1 : Rat) else 0) == q
  | .vint a, .vbool b => a == (if b then (1 : Int) else 0)
  | .vint a, .vint b => a == b
  | .vint a, .vfloat q => (a : Rat) == q
  | .vfloat q, .vbool b => q == (if b then (1 : Rat) else 0)
  | .vfloat q, .vint b => q == (b : Rat)
  | .vfloat a, .vfloat b => a == b
  | .vstr a, .vstr b => a == b
  | .vlist xs, .vlist ys => beqValList xs ys
  | .vdict xs, .vdict ys => beqValKVs xs ys
  | _, _ => false

/-- Elementwise Python equality on lists of values. -/
def beqValList : List PyVal → List PyVal → Bool
  | [], [] => true
  | x :: xs, y :: ys => beqVal x y && beqValList xs ys
  | _, _ => false

/-- Elementwise Python equality on dict entry lists. -/
def beqValKVs : List (String × PyVal) → List (String × PyVal) → Bool
  | [], [] => true
  | (k1, v1) :: xs, (k2, v2) :: ys => k1 == k2 && beqVal v1 v2 && beqValKVs xs ys
  | _, _ => false

end

namespace PyVal

/-- Python dict lookup d.get(k, default) over the association-list model:
first binding for the key wins (Python dicts have unique keys). -/
def dget (kvs : List (String × PyVal)) (k : String) (dflt : PyVal := .vnone) : PyVal :=
  match kvs with
  | [] => dflt
  | (k2, v) :: rest => if k2 = k then v else dget rest k dflt

/-- Python membership test k in d over the association-list model. -/
def dmem (kvs : List (String × PyVal)) (k : String) : Bool :=
  match kvs with
  | [] => false
  | (k2, _) :: rest => k2 = k || dmem rest k

/-- Python truthiness of a runtime value (`if decision:`). -/
def truthy : PyVal → Bool
  | .vnone => false
  | .vbool b => b
  | .vint n => decide (n ≠ 0)
  | .vfloat q => decide (q ≠ 0)
  | .vstr s => decide (s ≠ "")
  | .vlist xs => !xs.isEmpty
  | .vdict kvs => !kvs.isEmpty

/-- Python str() as used in f-strings, for the value shapes this code
interpolates (strings and numbers); float formatting is not modelled
beyond rational printing, and no verified claim depends on it. -/
def pystr : PyVal → String
  | .vnone => "None"
  | .vbool b => if b then "True" else "False"
  | .vint n => toString n
  | .vfloat q => toString q
  | .vstr s => s
  | .vlist _ => "[...]"
  | .vdict _ => "\x7b...\x7d"

/-- View of a payload entry expected to be a dict, as used for
payload.get("inputs", \x7b\x7d): returns the entry list. A non-dict value here
would raise in Python when iterated; the claims below always hypothesise a
dict, so the default [] branch is never exercised by a theorem. -/
def dictView : PyVal → List (String × PyVal)
  | .vdict kvs => kvs
  | _ => []

end PyVal

/-- Wire message types of the A2A protocol (class MessageType, a str enum). -/
inductive MessageType where
  | TASK_REQUEST
  | TASK_STATUS
  | TASK_RESULT
  | APPROVAL_REQUEST
  | APPROVAL_RESPONSE
  | ERROR
deriving DecidableEq, Repr

/-- Wire string of each message type. -/
def MessageType.wire : MessageType → String
  | .TASK_REQUEST => "TASK_REQUEST"
  | .TASK_STATUS => "TASK_STATUS"
  | .TASK_RESULT => "TASK_RESULT"
  | .APPROVAL_REQUEST => "APPROVAL_REQUEST"
  | .APPROVAL_RESPONSE => "APPROVAL_RESPONSE"
  | .ERROR => "ERROR"

/-- Parse a wire string back into a message type; none for an unknown tag
(pydantic enum validation). -/
def MessageType.ofWire (s : String) : Option MessageType :=
  if s = "TASK_REQUEST" then some .TASK_REQUEST
  else if s = "TASK_STATUS" then some .TASK_STATUS
  else if s = "TASK_RESULT" then some .TASK_RESULT
  else if s = "APPROVAL_REQUEST" then some .APPROVAL_REQUEST
  else if s = "APPROVAL_RESPONSE" then some .APPROVAL_RESPONSE
  else if s = "ERROR" then some .ERROR
  else none

/-- The A2A message envelope (class A2AMessage, backend/a2a/protocol.py):
message_id, type, from_agent, to_agent, timestamp, trace_id, an open
dict-typed payload, and an optional signature. -/
structure A2AMessage where
  message_id : String
  type : MessageType
  from_agent : String
  to_agent : String
  timestamp : String
  trace_id : String
  payload : List (String × PyVal)
  signature : Option String := none

/-- Deterministic model of the uuid.uuid4() supply: the n-th fresh id drawn
from a counter threaded through every effectful call. -/
def freshId (n : Nat) : String :=
  "uuid-" ++ toString n

/-- Deterministic model of datetime.utcnow().isoformat() + Z, drawn from the
same counter; no claim depends on timestamp contents. -/
def nowStamp (n : Nat) : String :=
  "ts-" ++ toString n ++ "Z"

/-- A2AMessage.create: draws a fresh message_id; the trace_id argument is
used via the Python expression trace_id or str(uuid.uuid4()), so both None
and the empty string are replaced by a fresh id (empty strings are falsy). -/
def createMessage (msg_type : MessageType) (from_agent to_agent : String)
    (payload : List (String × PyVal)) (trace_id : Option String) (g : Nat) :
    A2AMessage × Nat :=
  match trace_id with
  | some t =>
      if t = "" then
        (⟨freshId g, msg_type, from_agent, to_agent, nowStamp g, freshId (g + 1), payload, none⟩, g + 2)
      else
        (⟨freshId g, msg_type, from_agent, to_agent, nowStamp g, t, payload, none⟩, g + 1)
  | none =>
      (⟨freshId g, msg_type, from_agent, to_agent, nowStamp g, freshId (g + 1), payload, none⟩, g + 2)

/-- A2AMessage.to_json (model_dump_json), at the level of the JSON document
tree: a JSON object with the eight envelope fields, the payload re-emitted
verbatim, and a null signature when absent. -/
def serialize (m : A2AMessage) : PyVal :=
  .vdict [("message_id", .vstr m.message_id),
          ("type", .vstr m.type.wire),
          ("from_agent", .vstr m.from_agent),
          ("to_agent", .vstr m.to_agent),
          ("timestamp", .vstr m.timestamp),
          ("trace_id", .vstr m.trace_id),
          ("payload", .vdict m.payload),
          ("signature", match m.signature with | some s => .vstr s | none => .vnone)]

/-- A2AMessage.from_json (model_validate_json) over the JSON document tree:
requires a JSON object whose envelope string fields are present and strings,
whose type tag is one of the six known variants, and whose payload is an
object; the payload contents are not validated further (the payload field is
typed Dict[str, Any]); signature may be absent, null or a string; unknown
envelope keys are ignored (pydantic default). -/
def deserialize (v : PyVal) : Except String A2AMessage :=
  match v with
  | .vdict kvs =>
      match PyVal.dget kvs "message_id", PyVal.dget kvs "from_agent",
            PyVal.dget kvs "to_agent", PyVal.dget kvs "timestamp",
            PyVal.dget kvs "trace_id" with
      | .vstr mid, .vstr fa, .vstr ta, .vstr ts, .vstr tr =>
          match PyVal.dget kvs "type" with
          | .vstr tys =>
              match MessageType.ofWire tys with
              | some ty =>
                  match PyVal.dget kvs "payload" with
                  | .vdict pl =>
                      match PyVal.dget kvs "signature" with
                      | .vnone => .ok ⟨mid, ty, fa, ta, ts, tr, pl, none⟩
                      | .vstr sg => .ok ⟨mid, ty, fa, ta, ts, tr, pl, some sg⟩
                      | _ => .error ("validation error: signature")
                  | _ => .error ("validation error: payload")
              | none => .error ("validation error: type tag")
          | _ => .error ("validation error: type tag")
      | _, _, _, _, _ => .error ("validation error: envelope field")
  | _ => .error ("validation error: not an object")

/-! Tool registry (backend/mcp/tool_registry.py). A manifest is a JSON dict;
we embed it with the .get defaults the code applies already resolved:
param_spec.get("type") as an Option, param_spec.get("required", False) and
tool.get("approval_required", False) as Bools, tool.get("constraints", \x7b\x7d)
as an entry list. -/

/-- One declared input parameter of a tool manifest. -/
structure ParamSpec where
  ptype : Option String
  required : Bool

/-- A loaded tool manifest entry. -/
structure Tool where
  tool_id : String
  inputs : List (String × ParamSpec)
  constraints : List (String × PyVal)
  approval_required : Bool

/-- The registry maps tool_id to manifest; load_manifests keys each manifest
by its own tool_id field, so lookup is search by that field. -/
def get_tool (reg : List Tool) (tid : String) : Option Tool :=
  match reg with
  | [] => none
  | t :: rest => if t.tool_id = tid then some t else get_tool rest tid

/-- Lookup of an input parameter in the manifest input declarations. -/
def specGet (specs : List (String × ParamSpec)) (k : String) : Option ParamSpec :=
  match specs with
  | [] => none
  | (k2, v) :: rest => if k2 = k then some v else specGet rest k

/-- Membership of a key among the manifest input declarations. -/
def specMem (specs : List (String × ParamSpec)) (k : String) : Bool :=
  match specs with
  | [] => false
  | (k2, _) :: rest => k2 = k || specMem rest k

/-- Python isinstance(v, str). -/
def isStrInstance : PyVal → Bool
  | .vstr _ => true
  | _ => false

/-- Python isinstance(v, int): true for ints and also for bools, because
bool is a subclass of int in Python. -/
def isIntInstance : PyVal → Bool
  | .vint _ => true
  | .vbool _ => true
  | _ => false

/-- Python isinstance(v, bool). -/
def isBoolInstance : PyVal → Bool
  | .vbool _ => true
  | _ => false

/-- First loop of validate_inputs: scan the manifest declarations in order
for a required parameter missing from the inputs. -/
def findMissingRequired (specs : List (String × ParamSpec))
    (inputs : List (String × PyVal)) : Option String :=
  match specs with
  | [] => none
  | (p, spec) :: rest =>
      if spec.required && !(PyVal.dmem inputs p) then some p
      else findMissingRequired rest inputs

/-- Second loop of validate_inputs: scan the provided inputs in order for an
undeclared key or a declared-type mismatch, returning the error message. -/
def findBadParam (specs : List (String × ParamSpec))
    (inputs : List (String × PyVal)) : Option String :=
  match inputs with
  | [] => none
  | (p, v) :: rest =>
      match specGet specs p with
      | none => some ("Unknown parameter: " ++ p)
      | some spec =>
          if spec.ptype = some "string" && !isStrInstance v then
            some ("Parameter " ++ p ++ " must be string")
          else if spec.ptype = some "integer" && !isIntInstance v then
            some ("Parameter " ++ p ++ " must be integer")
          else if spec.ptype = some "boolean" && !isBoolInstance v then
            some ("Parameter " ++ p ++ " must be boolean")
          else findBadParam specs rest

/-- ToolRegistry.validate_inputs: required-parameter check first, then the
closed unknown-key and type check, returning (ok, error message). -/
def validate_inputs (reg : List Tool) (tid : String)
    (inputs : List (String × PyVal)) : Bool × Option String :=
  match get_tool reg tid with
  | none => (false, some ("Tool not found: " ++ tid))
  | some tool =>
      match findMissingRequired tool.inputs inputs with
      | some p => (false, some ("Missing required parameter: " ++ p))
      | none =>
          match findBadParam tool.inputs inputs with
          | some e => (false, some e)
          | none => (true, none)

/-- Numeric view used by the Python > comparison in check_constraints; a
comparison on non-numeric operands raises a TypeError in Python, which no
claim exercises (manifests declare numeric constraints). -/
def numView : PyVal → Option Rat
  | .vint n => some (n : Rat)
  | .vfloat q => some q
  | .vbool b => some (if b then 1 else 0)
  | _ => none

/-- Python numeric a > b on payload values. -/
def pyNumGt (a b : PyVal) : Bool :=
  match numView a, numView b with
  | some x, some y => decide (y < x)
  | _, _ => false

/-- ToolRegistry.check_constraints: the one implemented constraint compares
inputs size_mb against the manifest max_size_mb. -/
def check_constraints (reg : List Tool) (tid : String)
    (inputs : List (String × PyVal)) : Bool × Option String :=
  match get_tool reg tid with
  | none => (false, some ("Tool not found: " ++ tid))
  | some tool =>
      if PyVal.dmem tool.constraints "max_size_mb" && PyVal.dmem inputs "size_mb" then
        if pyNumGt (PyVal.dget inputs "size_mb") (PyVal.dget tool.constraints "max_size_mb") then
          (false, some ("Size exceeds limit: " ++
            PyVal.pystr (PyVal.dget tool.constraints "max_size_mb") ++ " MB"))
        else (true, none)
      else (true, none)

/-! Message construction helpers of backend/a2a/protocol.py. The payload of
each helper is the pydantic model_dump of the variant model, containing every
declared field in declaration order with None for unset optionals. Task ids
flow through the executor as payload values; the claims below always
hypothesise string-valued task ids, the only case pydantic accepts. -/

/-- Optional-field embedding helper for payload dumps. -/
def optVal (f : α → PyVal) : Option α → PyVal
  | some a => f a
  | none => .vnone

/-- create_task_status: TASK_STATUS message whose payload is the TaskStatus
dump (task_id, status, progress, message, logs). -/
def create_task_status (from_agent to_agent : String) (task_id : PyVal)
    (status : String) (progress : Option Rat) (message : Option String)
    (trace_id : Option String) (g : Nat) : A2AMessage × Nat :=
  createMessage .TASK_STATUS from_agent to_agent
    [("task_id", task_id), ("status", .vstr status),
     ("progress", optVal PyVal.vfloat progress),
     ("message", optVal PyVal.vstr message), ("logs", .vnone)]
    trace_id g

/-- create_task_result: TASK_RESULT message whose payload is the TaskResult
dump (task_id, status, outputs, error, artifacts with default []). -/
def create_task_result (from_agent to_agent : String) (task_id : PyVal)
    (status : String) (outputs : Option (List (String × PyVal)))
    (error : Option String) (trace_id : Option String) (g : Nat) :
    A2AMessage × Nat :=
  createMessage .TASK_RESULT from_agent to_agent
    [("task_id", task_id), ("status", .vstr status),
     ("outputs", optVal PyVal.vdict outputs),
     ("error", optVal PyVal.vstr error), ("artifacts", .vlist [])]
    trace_id g

/-! Executor agent (backend/agents/executor_agent.py). State is the
running_tasks dict, keyed by the payload task_id value; the transport is
modelled by returning the list of published messages in publication order,
with the uuid/timestamp counter threaded through. -/

/-- One parked entry of the running_tasks table. -/
structure ParkedTask where
  message : A2AMessage
  tool : Tool
  status : String

/-- Executor state: the in-memory running_tasks table. -/
structure ExecState where
  running_tasks : List (PyVal × ParkedTask)

/-- Dict lookup in the running_tasks table (Python == on keys). -/
def taskLookup (tbl : List (PyVal × ParkedTask)) (k : PyVal) : Option ParkedTask :=
  match tbl with
  | [] => none
  | (k2, v) :: rest => if beqVal k2 k then some v else taskLookup rest k

/-- Dict assignment in the running_tasks table: replace in place if the key
is present, append otherwise (Python dicts keep insertion order). -/
def taskInsert (tbl : List (PyVal × ParkedTask)) (k : PyVal) (v : ParkedTask) :
    List (PyVal × ParkedTask) :=
  match tbl with
  | [] => [(k, v)]
  | (k2, v2) :: rest =>
      if beqVal k2 k then (k2, v) :: rest else (k2, v2) :: taskInsert rest k v

/-- Dict deletion in the running_tasks table. -/
def taskErase (tbl : List (PyVal × ParkedTask)) (k : PyVal) :
    List (PyVal × ParkedTask) :=
  match tbl with
  | [] => []
  | (k2, v2) :: rest =>
      if beqVal k2 k then rest else (k2, v2) :: taskErase rest k

/-- ExecutorAgent._send_error: publish a single failed TASK_RESULT carrying
the error text, addressed back to the sender, with the incoming trace_id. -/
def send_error (agent_id : String) (m : A2AMessage) (err : String) (g : Nat) :
    List A2AMessage × Nat :=
  let r := create_task_result agent_id m.from_agent (PyVal.dget m.payload "task_id")
    "failed" none (some err) (some m.trace_id) g
  ([r.1], r.2)

/-- ExecutorAgent._execute_kaggle_download (mock): echo a download result. -/
def kaggleOutputs (inputs : List (String × PyVal)) : List (String × PyVal) :=
  [("dataset_path", .vstr ("/data/" ++ PyVal.pystr (PyVal.dget inputs "dataset_ref"))),
   ("files", .vlist [.vstr ("data.csv")]),
   ("size_mb", .vfloat (21 / 2))]

/-- ExecutorAgent._execute_eda (mock): canned EDA summary. -/
def edaOutputs (_inputs : List (String × PyVal)) : List (String × PyVal) :=
  [("summary_stats", .vdict [("mean", .vint 42), ("std", .vint 10)]),
   ("missing_data", .vdict [("col1", .vint 5)]),
   ("correlations", .vdict [("col1_col2", .vfloat (17 / 20))]),
   ("visualizations", .vlist [.vstr ("/outputs/corr_heatmap.png")]),
   ("report_path", .vstr ("/outputs/eda_report.md"))]

/-- ExecutorAgent._execute_code (mock): canned sandbox result. -/
def runCodeOutputs (_inputs : List (String × PyVal)) : List (String × PyVal) :=
  [("stdout", .vstr ("Execution completed")), ("stderr", .vstr ("")),
   ("artifacts", .vlist [.vstr ("/outputs/result.csv")]),
   ("exit_code", .vint 0)]

/-- Tool dispatch inside _execute_tool: the three implemented tools, and a
placeholder outputs map for every other registered tool. -/
def toolOutputs (tid : String) (inputs : List (String × PyVal)) :
    List (String × PyVal) :=
  if tid = "kaggle.dataset.download" then kaggleOutputs inputs
  else if tid = "analyzer.eda" then edaOutputs inputs
  else if tid = "executor.run_code" then runCodeOutputs inputs
  else [("message", .vstr ("Tool " ++ tid ++ " not implemented yet"))]

/-- ExecutorAgent._execute_tool: initial running status at progress 0.0,
three intermediate running statuses at 0.3, 0.6, 0.9, then the completed
TASK_RESULT with the computed outputs, all carrying the trace_id of the
originating request message. The except branch of the source (failed
TASK_RESULT on a raised exception) is unreachable here because the mock
executors and the dict/publish operations cannot raise. -/
def execute_tool (agent_id : String) (m : A2AMessage) (tool : Tool)
    (inputs : List (String × PyVal)) (g : Nat) : List A2AMessage × Nat :=
  let task_id := PyVal.dget m.payload "task_id"
  let s0 := create_task_status agent_id m.from_agent task_id "running" (some 0)
    (some ("Starting " ++ tool.tool_id)) (some m.trace_id) g
  let outputs := toolOutputs tool.tool_id inputs
  let s3 := create_task_status agent_id m.from_agent task_id "running"
    (some (3 / 10)) none (some m.trace_id) s0.2
  let s6 := create_task_status agent_id m.from_agent task_id "running"
    (some (6 / 10)) none (some m.trace_id) s3.2
  let s9 := create_task_status agent_id m.from_agent task_id "running"
    (some (9 / 10)) none (some m.trace_id) s6.2
  let r := create_task_result agent_id m.from_agent task_id "completed"
    (some outputs) none (some m.trace_id) s9.2
  ([s0.1, s3.1, s6.1, s9.1, r.1], r.2)

/-- ExecutorAgent._request_approval: park the task under its task_id, then
publish an APPROVAL_REQUEST to the director agent with the ApprovalRequest
payload dump, carrying the request trace_id. -/
def request_approval (agent_id : String) (m : A2AMessage) (tool : Tool)
    (st : ExecState) (g : Nat) : ExecState × List A2AMessage × Nat :=
  let task_id := PyVal.dget m.payload "task_id"
  let st2 : ExecState :=
    ⟨taskInsert st.running_tasks task_id ⟨m, tool, "awaiting_approval"⟩⟩
  let a := createMessage .APPROVAL_REQUEST agent_id "director"
    [("task_id", task_id),
     ("reason", .vstr ("Tool " ++ tool.tool_id ++ " requires approval")),
     ("artifacts", .vlist []), ("estimated_risk", .vstr ("medium")),
     ("approvers", .vlist [])]
    (some m.trace_id) g
  (st2, [a.1], a.2)

/-- ExecutorAgent._handle_task_request: resolve the tool (a non-string
tool_id value cannot match any registry key), reject if absent; validate
inputs, reject on failure; defer to approval when the manifest requires it;
otherwise execute. -/
def handle_task_request (reg : List Tool) (agent_id : String) (st : ExecState)
    (m : A2AMessage) (g : Nat) : ExecState × List A2AMessage × Nat :=
  let inputs := PyVal.dictView (PyVal.dget m.payload "inputs" (.vdict []))
  match PyVal.dget m.payload "tool_id" with
  | .vstr tid =>
      match get_tool reg tid with
      | none =>
          let e := send_error agent_id m ("Tool not found: " ++ tid) g
          (st, e.1, e.2)
      | some tool =>
          match validate_inputs reg tid inputs with
          | (true, _) =>
              if tool.approval_required then
                request_approval agent_id m tool st g
              else
                let o := execute_tool agent_id m tool inputs g
                (st, o.1, o.2)
          | (false, err) =>
              let e := send_error agent_id m
                ("Invalid inputs: " ++ (err.getD "None")) g
              (st, e.1, e.2)
  | other =>
      let e := send_error agent_id m ("Tool not found: " ++ PyVal.pystr other) g
      (st, e.1, e.2)

/-- ExecutorAgent._handle_approval_response: unknown task ids are dropped
with no state change; a truthy decision re-executes the parked request with
its originally parked inputs; a falsy decision publishes the rejected
TASK_RESULT with the parked request trace_id; both resolved branches remove
the entry from the table. -/
def handle_approval_response (agent_id : String) (st : ExecState)
    (m : A2AMessage) (g : Nat) : ExecState × List A2AMessage × Nat :=
  let task_id := PyVal.dget m.payload "task_id"
  let decision := PyVal.dget m.payload "decision"
  match taskLookup st.running_tasks task_id with
  | none => (st, [], g)
  | some info =>
      if PyVal.truthy decision then
        let inputs := PyVal.dictView (PyVal.dget info.message.payload "inputs" (.vdict []))
        let o := execute_tool agent_id info.message info.tool inputs g
        (⟨taskErase st.running_tasks task_id⟩, o.1, o.2)
      else
        let r := create_task_result agent_id info.message.from_agent task_id
          "rejected" none (some "Approval denied") (some info.message.trace_id) g
        (⟨taskErase st.running_tasks task_id⟩, [r.1], r.2)

/-- ExecutorAgent.handle_message: dispatch on the message type; every other
type is ignored. -/
def handle_message (reg : List Tool) (agent_id : String) (st : ExecState)
    (m : A2AMessage) (g : Nat) : ExecState × List A2AMessage × Nat :=
  match m.type with
  | .TASK_REQUEST => handle_task_request reg agent_id st m g
  | .APPROVAL_RESPONSE => handle_approval_response agent_id st m g
  | _ => (st, [], g)

/-- Run the executor over a finite incoming trace, concatenating the
published messages in order. -/
def execRun (reg : List Tool) (agent_id : String) (st : ExecState) (g : Nat) :
    List A2AMessage → ExecState × List A2AMessage × Nat
  | [] => (st, [], g)
  | m :: ms =>
      let s := handle_message reg agent_id st m g
      let r := execRun reg agent_id s.1 s.2.2 ms
      (r.1, s.2.1 ++ r.2.1, r.2.2)

/-! Planner agent (backend/agents/planner_agent.py). The planning oracle
(an LLM call) is an external collaborator; its outcome is passed in as a
parameter: none models an unconfigured model, an error models a raised
exception, an ok carries the response text. json.loads is embedded as a
recursive-descent parser over the document subset this code can receive
(objects, arrays, strings with simple escapes, integers, decimal fractions,
true/false/null). -/

/-- Skip JSON whitespace. -/
def jsonSkip : List Char → List Char
  | [] => []
  | c :: rest =>
      if c = ' ' || c = '\n' || c = '\t' || c = '\r' then jsonSkip rest
      else c :: rest

/-- Translate a JSON escape character. -/
def jsonEsc (c : Char) : Char :=
  if c = 'n' then '\n' else if c = 't' then '\t' else if c = 'r' then '\r' else c

/-- Read a JSON string body up to the closing quote. -/
def jsonStringBody (acc : List Char) : List Char → Option (String × List Char)
  | [] => none
  | c :: rest =>
      if c = '"' then some (String.mk acc.reverse, rest)
      else if c = '\\' then
        match rest with
        | [] => none
        | e :: rest2 => jsonStringBody (jsonEsc e :: acc) rest2
      else jsonStringBody (c :: acc) rest

/-- Accumulate decimal digits into a natural number. -/
def digitsToNat (ds : List Char) : Nat :=
  ds.foldl (fun a c => a * 10 + (c.toNat - 48)) 0

/-- Parse a JSON number: integers stay ints, a decimal fraction makes a
float, matching the json.loads int/float distinction. -/
def jsonNum (s : List Char) : Option (PyVal × List Char) :=
  let p := match s with
    | c :: r => if c = '-' then (true, r) else (false, s)
    | [] => (false, s)
  let ds := p.2.span Char.isDigit
  if ds.1.isEmpty then none
  else
    let iv : Nat := digitsToNat ds.1
    match ds.2 with
    | c :: r =>
        if c = '.' then
          let fs := r.span Char.isDigit
          if fs.1.isEmpty then none
          else
            let q : Rat := (iv : Rat) + (digitsToNat fs.1 : Rat) / ((10 : Rat) ^ fs.1.length)
            some (.vfloat (if p.1 then -q else q), fs.2)
        else some (.vint (if p.1 then -(iv : Int) else (iv : Int)), ds.2)
    | [] => some (.vint (if p.1 then -(iv : Int) else (iv : Int)), ds.2)

mutual

/-- Parse one JSON value. -/
def jsonVal (fuel : Nat) (s : List Char) : Option (PyVal × List Char) :=
  match fuel with
  | 0 => none
  | f + 1 =>
      match jsonSkip s with
      | [] => none
      | c :: rest =>
          if c = '"' then
            match jsonStringBody [] rest with
            | some p => some (.vstr p.1, p.2)
            | none => none
          else if c = '{' then
            match jsonObjEntries f rest [] with
            | some p => some (.vdict p.1, p.2)
            | none => none
          else if c = '[' then
            match jsonArrEntries f rest [] with
            | some p => some (.vlist p.1, p.2)
            | none => none
          else if List.isPrefixOf ['t', 'r', 'u', 'e'] (c :: rest) then
            some (.vbool true, (c :: rest).drop 4)
          else if List.isPrefixOf ['f', 'a', 'l', 's', 'e'] (c :: rest) then
            some (.vbool false, (c :: rest).drop 5)
          else if List.isPrefixOf ['n', 'u', 'l', 'l'] (c :: rest) then
            some (.vnone, (c :: rest).drop 4)
          else jsonNum (c :: rest)

/-- Parse the entries of a JSON object after the opening brace. -/
def jsonObjEntries (fuel : Nat) (s : List Char) (acc : List (String × PyVal)) :
    Option (List (String × PyVal) × List Char) :=
  match fuel with
  | 0 => none
  | f + 1 =>
      match jsonSkip s with
      | [] => none
      | c :: rest =>
          if c = '}' then some (acc.reverse, rest)
          else
            let s2 := if c = ',' && !acc.isEmpty then jsonSkip rest else c :: rest
            match s2 with
            | c2 :: rest2 =>
                if c2 = '"' then
                  match jsonStringBody [] rest2 with
                  | some kp =>
                      match jsonSkip kp.2 with
                      | c3 :: rest3 =>
                          if c3 = ':' then
                            match jsonVal f rest3 with
                            | some vp => jsonObjEntries f vp.2 ((kp.1, vp.1) :: acc)
                            | none => none
                          else none
                      | [] => none
                  | none => none
                else none
            | [] => none

/-- Parse the entries of a JSON array after the opening bracket. -/
def jsonArrEntries (fuel : Nat) (s : List Char) (acc : List PyVal) :
    Option (List PyVal × List Char) :=
  match fuel with
  | 0 => none
  | f + 1 =>
      match jsonSkip s with
      | [] => none
      | c :: rest =>
          if c = ']' then some (acc.reverse, rest)
          else
            let s2 := if c = ',' && !acc.isEmpty then jsonSkip rest else c :: rest
            match jsonVal f s2 with
            | some vp => jsonArrEntries f vp.2 (vp.1 :: acc)
            | none => none

end

/-- json.loads over the character list of a document: the parse succeeds only
when the whole remaining input is whitespace, with the array/object wrappers
as above. -/
def jsonLoads (s : List Char) : Option PyVal :=
  match jsonVal (2 * s.length + 8) s with
  | some p => if (jsonSkip p.2).isEmpty then some p.1 else none
  | none => none

/-- The parse-failure plan returned by _parse_plan_response. -/
def errorPlan : PyVal :=
  .vdict [("plan_id", .vstr ("error")), ("steps", .vlist [])]

/-- Index of the first occurrence of a character (Python str.find). -/
def firstIdx (cs : List Char) (c : Char) : Option Nat :=
  cs.findIdx? (fun x => x = c)

/-- Index of the last occurrence of a character (Python str.rfind). -/
def lastIdx (cs : List Char) (c : Char) : Option Nat :=
  match firstIdx cs.reverse c with
  | some i => some (cs.length - 1 - i)
  | none => none

/-- PlannerAgent._parse_plan_response: take the span from the first opening
brace to the last closing brace inclusive, json.loads it, and return the
parsed plan; on no such span or a parse failure return the error plan. -/
def parse_plan_response (response_text : String) : PyVal :=
  let cs := response_text.data
  match firstIdx cs '{' with
  | none => errorPlan
  | some start =>
      let stop := match lastIdx cs '}' with
        | some j => j + 1
        | none => 0
      if start < stop then
        match jsonLoads ((cs.drop start).take (stop - start)) with
        | some plan => plan
        | none => errorPlan
      else errorPlan

/-- Python str.lower(), modelled on the ASCII range the planner queries
use. -/
def lowerStr (s : String) : String :=
  String.mk (s.data.map Char.toLower)

/-- Substring search over character lists (Python needle in hay). -/
def listContains (hay needle : List Char) : Bool :=
  match hay with
  | [] => needle.isEmpty
  | _ :: rest => List.isPrefixOf needle hay || listContains rest needle

/-- Python substring containment needle in hay. -/
def containsSub (hay needle : String) : Bool :=
  listContains hay.data needle.data

/-- PlannerAgent._create_fallback_plan: a kaggle download step when the query
mentions data, then always an EDA step, with the fresh plan uuid drawn as a
parameter. -/
def create_fallback_plan (user_query : String) (uuid : String) : PyVal :=
  let ql := lowerStr user_query
  let step1 : PyVal := .vdict
    [("step_id", .vstr ("s1")),
     ("tool_id", .vstr ("kaggle.dataset.download")),
     ("description", .vstr ("Download dataset")),
     ("inputs", .vdict [("dataset_ref", .vstr ("example/dataset"))]),
     ("depends_on", .vlist [])]
  let steps1 : List PyVal :=
    if containsSub ql "dataset" || containsSub ql "data" then [step1] else []
  let step2 : PyVal := .vdict
    [("step_id", .vstr ("s2")),
     ("tool_id", .vstr ("analyzer.eda")),
     ("description", .vstr ("Perform exploratory data analysis")),
     ("inputs", .vdict [("dataset_path", .vstr ("/data/dataset.csv"))]),
     ("depends_on", .vlist (if steps1.isEmpty then [] else [.vstr ("s1")]))]
  .vdict [("plan_id", .vstr uuid),
          ("description", .vstr ("Fallback plan for: " ++ user_query)),
          ("steps", .vlist (steps1 ++ [step2]))]

/-- PlannerAgent.create_plan: with a configured model, parse the oracle
response; on a raised oracle exception, or with no model configured, return
the fallback plan. The prompt built from the tool list and query only feeds
the oracle, which is abstracted by passing its outcome directly. -/
def create_plan (oracle : Option (Except Unit String)) (user_query : String)
    (uuid : String) : PyVal :=
  match oracle with
  | some (.ok text) => parse_plan_response text
  | some (.error _) => create_fallback_plan user_query uuid
  | none => create_fallback_plan user_query uuid

/-- Optional-signature view used to state when deserialization accepts the
signature slot: absent/null gives none, a string gives some. -/
def sigView : PyVal → Option (Option String)
  | .vnone => some none
  | .vstr s => some (some s)
  | _ => none

/-- Per-parameter type acceptance of the second validate_inputs loop, under
Python isinstance semantics: declared string accepts exactly strings,
declared integer accepts ints and bools (bool subclasses int), declared
boolean accepts exactly bools; any other or absent declared type accepts
every value. -/
def typeMatches (spec : ParamSpec) (v : PyVal) : Bool :=
  !(spec.ptype = some "string" && !isStrInstance v) &&
  (!(spec.ptype = some "integer" && !isIntInstance v) &&
   !(spec.ptype = some "boolean" && !isBoolInstance v))

/-- Specification predicate: every required declared parameter is present. -/
def requiredPresent (specs : List (String × ParamSpec))
    (inputs : List (String × PyVal)) : Bool :=
  specs.all (fun ps => !ps.2.required || PyVal.dmem inputs ps.1)

/-- Specification predicate: every provided input key is declared and its
value passes the type acceptance of its declaration. -/
def inputsDeclaredAndTyped (specs : List (String × ParamSpec))
    (inputs : List (String × PyVal)) : Bool :=
  inputs.all (fun pv =>
    match specGet specs pv.1 with
    | some spec => typeMatches spec pv.2
    | none => false)

/-! Concrete instances used by individual witnesses and counterexamples. -/

/-- No TASK_RESULT in the list refers to task id t. -/
def noResultFor (t : String) (out : List A2AMessage) : Prop :=
  ∀ r ∈ out, r.type = .TASK_RESULT → PyVal.dget r.payload "task_id" ≠ .vstr t

/-- Parked-table consistency for task id t: any parked entry whose stored
request is for task t is keyed by the string t itself. -/
def parkedConsistent (t : String) (tbl : List (PyVal × ParkedTask)) : Prop :=
  ∀ k info, (k, info) ∈ tbl →
    PyVal.dget info.message.payload "task_id" = .vstr t → k = .vstr t

/-- A registry with one approval-requiring tool. -/
def c1reg : List Tool :=
  [⟨"executor.run_code", [], [], true⟩]

/-- A TASK_REQUEST for the approval-requiring tool. -/
def c1req : A2AMessage :=
  ⟨"m-c1", .TASK_REQUEST, "planner.agent.v1", "executor.agent.v1", "ts", "tr-c1",
   [("task_id", .vstr ("t-c1")), ("tool_id", .vstr ("executor.run_code")),
    ("inputs", .vdict []), ("metadata", .vdict [])], none⟩

/-- An APPROVAL_RESPONSE denying task t-c1. -/
def c1resp : A2AMessage :=
  ⟨"m-c1r", .APPROVAL_RESPONSE, "director", "executor.agent.v1", "ts", "tr-c1",
   [("task_id", .vstr ("t-c1")), ("approver_id", .vstr ("d")),
    ("decision", .vbool false), ("notes", .vnone)], none⟩

/-- A registry with one tool declaring an integer size_mb input and a
max_size_mb constraint of 10 (and no approval requirement). -/
def c2reg : List Tool :=
  [⟨"loader.sized", [("size_mb", ⟨some "integer", true⟩)],
    [("max_size_mb", .vint 10)], false⟩]

/-- A TASK_REQUEST whose size_mb input passes type validation but violates
the max_size_mb constraint. -/
def c2msg : A2AMessage :=
  ⟨"m-c2", .TASK_REQUEST, "planner.agent.v1", "executor.agent.v1", "ts", "tr-c2",
   [("task_id", .vstr ("t-c2")), ("tool_id", .vstr ("loader.sized")),
    ("inputs", .vdict [("size_mb", .vint 100)]), ("metadata", .vdict [])], none⟩

/-- A TASK_REQUEST whose size_mb input fails type validation. -/
def c2badmsg : A2AMessage :=
  ⟨"m-c2b", .TASK_REQUEST, "planner.agent.v1", "executor.agent.v1", "ts", "tr-c2b",
   [("task_id", .vstr ("t-c2b")), ("tool_id", .vstr ("loader.sized")),
    ("inputs", .vdict [("size_mb", .vstr ("big"))]), ("metadata", .vdict [])], none⟩

/-- A registry with one parameterless tool needing no approval. -/
def c9reg : List Tool :=
  [⟨"echo.tool", [], [], false⟩]

/-- A TASK_REQUEST carrying an empty trace_id. -/
def c9msg : A2AMessage :=
  ⟨"m-c9", .TASK_REQUEST, "planner.agent.v1", "executor.agent.v1", "ts", "",
   [("task_id", .vstr ("t-c9")), ("tool_id", .vstr ("echo.tool")),
    ("inputs", .vdict []), ("metadata", .vdict [])], none⟩

/-- The same TASK_REQUEST with a non-empty trace_id. -/
def c9bmsg : A2AMessage :=
  ⟨"m-c9b", .TASK_REQUEST, "planner.agent.v1", "executor.agent.v1", "ts", "tr-c9",
   [("task_id", .vstr ("t-c9")), ("tool_id", .vstr ("echo.tool")),
    ("inputs", .vdict []), ("metadata", .vdict [])], none⟩

/-- A concrete TASK_REQUEST for an unregistered tool id. -/
def c6msg : A2AMessage :=
  ⟨"m-c6", .TASK_REQUEST, "planner.agent.v1", "executor.agent.v1", "ts", "tr-c6",
   [("task_id", .vstr ("t-c6")), ("tool_id", .vstr ("nonexistent.tool")),
    ("inputs", .vdict []), ("metadata", .vdict [])], none⟩

/-! Shared lemmas about the embedded operations. -/

@[simp]
theorem createMessage_type (ty : MessageType) (fa ta : String)
    (pl : List (String × PyVal)) (tr : Option String) (g : Nat) :
    ((createMessage ty fa ta pl tr g).1).type = ty := by
  cases tr with
  | none => rfl
  | some t =>
      simp only [createMessage]
      split <;> rfl

@[simp]
theorem createMessage_payload (ty : MessageType) (fa ta : String)
    (pl : List (String × PyVal)) (tr : Option String) (g : Nat) :
    ((createMessage ty fa ta pl tr g).1).payload = pl := by
  cases tr with
  | none => rfl
  | some t =>
      simp only [createMessage]
      split <;> rfl

@[simp]
theorem createMessage_from (ty : MessageType) (fa ta : String)
    (pl : List (String × PyVal)) (tr : Option String) (g : Nat) :
    ((createMessage ty fa ta pl tr g).1).from_agent = fa := by
  cases tr with
  | none => rfl
  | some t =>
      simp only [createMessage]
      split <;> rfl

@[simp]
theorem createMessage_to (ty : MessageType) (fa ta : String)
    (pl : List (String × PyVal)) (tr : Option String) (g : Nat) :
    ((createMessage ty fa ta pl tr g).1).to_agent = ta := by
  cases tr with
  | none => rfl
  | some t =>
      simp only [createMessage]
      split <;> rfl

theorem createMessage_trace (ty : MessageType) (fa ta : String)
    (pl : List (String × PyVal)) (tr : String) (g : Nat) (h : tr ≠ "") :
    ((createMessage ty fa ta pl (some tr) g).1).trace_id = tr := by
  simp [createMessage, h]

theorem get_tool_tool_id (reg : List Tool) (tid : String) (tool : Tool)
    (h : get_tool reg tid = some tool) : tool.tool_id = tid := by
  induction reg with
  | nil => simp [get_tool] at h
  | cons t rest ih =>
      rw [get_tool] at h
      by_cases he : t.tool_id = tid
      · simp [he] at h
        rw [← h]
        exact he
      · simp [he] at h
        exact ih h

/-- C4: for every valid A2AMessage of any payload variant and any field
values, deserialize after serialize returns the identical message on all
typed fields, and the payload — including any unknown or extra keys — is
re-emitted verbatim in the serialized document. -/
theorem roundtrip_preserves_message (m : A2AMessage) :
    deserialize (serialize m) = Except.ok m ∧
    PyVal.dget (PyVal.dictView (serialize m)) "payload" = .vdict m.payload := by
  obtain ⟨mid, ty, fa, ta, ts, tr, pl, sg⟩ := m
  constructor
  · cases ty <;> cases sg <;> rfl
  · rfl

/-- C7: an APPROVAL_RESPONSE whose task_id is not in the parked running_tasks
table publishes nothing and leaves the executor state (and id supply)
unchanged. -/
theorem unknown_approval_is_noop (reg : List Tool) (agent : String)
    (st : ExecState) (m : A2AMessage) (g : Nat)
    (hty : m.type = .APPROVAL_RESPONSE)
    (hun : taskLookup st.running_tasks (PyVal.dget m.payload "task_id") = none) :
    handle_message reg agent st m g = (st, [], g) := by
  simp only [handle_message, hty, handle_approval_response, hun]

/-- C7 witness: a concrete approval response against an empty parked table is
dropped without effect. -/
theorem unknown_approval_is_noop_witness :
    handle_message [] "executor.agent.v1" ⟨[]⟩
      ⟨"m1", .APPROVAL_RESPONSE, "director", "executor.agent.v1", "ts", "tr",
       [("task_id", .vstr ("t-9")), ("approver_id", .vstr ("d")),
        ("decision", .vbool true), ("notes", .vnone)], none⟩ 0 =
      (⟨[]⟩, [], 0) :=
  unknown_approval_is_noop [] "executor.agent.v1" ⟨[]⟩ _ 0 rfl rfl

/-- C8 counterexample: a TASK_REQUEST envelope whose payload lacks the
required task_id field of the TaskRequest variant still deserializes
successfully — payload shape is never validated by from_json. -/
theorem deserialize_accepts_missing_payload_fields :
    deserialize (.vdict
      [("message_id", .vstr ("m1")), ("type", .vstr ("TASK_REQUEST")),
       ("from_agent", .vstr ("planner")), ("to_agent", .vstr ("executor")),
       ("timestamp", .vstr ("ts")), ("trace_id", .vstr ("tr")),
       ("payload", .vdict []), ("signature", .vnone)]) =
    Except.ok ⟨"m1", .TASK_REQUEST, "planner", "executor", "ts", "tr", [], none⟩ := rfl

/-- C8 (amended): deserialization fails whenever the wire type tag is not one
of the six known variants (including a missing or non-string tag), and
succeeds on every input whose envelope fields are well-formed, regardless of
the payload contents — absent required payload fields of the tagged variant
do not cause failure. -/
theorem deserialize_envelope_validation :
    (∀ kvs : List (String × PyVal),
      (∀ t, PyVal.dget kvs "type" = .vstr t → MessageType.ofWire t = none) →
      ∃ err, deserialize (.vdict kvs) = Except.error err) ∧
    (∀ (kvs : List (String × PyVal)) (mid fa ta ts tr tys : String)
       (ty : MessageType) (pl : List (String × PyVal)) (sg : Option String),
      PyVal.dget kvs "message_id" = .vstr mid →
      PyVal.dget kvs "from_agent" = .vstr fa →
      PyVal.dget kvs "to_agent" = .vstr ta →
      PyVal.dget kvs "timestamp" = .vstr ts →
      PyVal.dget kvs "trace_id" = .vstr tr →
      PyVal.dget kvs "type" = .vstr tys →
      MessageType.ofWire tys = some ty →
      PyVal.dget kvs "payload" = .vdict pl →
      sigView (PyVal.dget kvs "signature") = some sg →
      deserialize (.vdict kvs) = Except.ok ⟨mid, ty, fa, ta, ts, tr, pl, sg⟩) := by
  constructor
  · intro kvs h
    rw [deserialize]
    split
    · split
      · rename_i tys htys
        rw [h tys htys]
        exact ⟨_, rfl⟩
      · exact ⟨_, rfl⟩
    · exact ⟨_, rfl⟩
  · intro kvs mid fa ta ts tr tys ty pl sg h1 h2 h3 h4 h5 h6 h7 h8 h9
    rw [deserialize]
    simp only [h1, h2, h3, h4, h5, h6, h7, h8]
    cases hs : PyVal.dget kvs "signature" <;> rw [hs] at h9 <;>
      simp only [sigView, Option.some.injEq, reduceCtorEq] at h9 <;>
      simp only [← h9]

/-- C8 witness: the amended theorem applied to a concrete unknown-tag
document and a concrete well-formed APPROVAL_RESPONSE document. -/
theorem deserialize_envelope_validation_witness :
    (∃ err, deserialize (.vdict [("type", .vstr ("BOGUS_TYPE"))]) =
      Except.error err) ∧
    deserialize (.vdict
      [("message_id", .vstr ("m2")), ("type", .vstr ("APPROVAL_RESPONSE")),
       ("from_agent", .vstr ("director")), ("to_agent", .vstr ("executor")),
       ("timestamp", .vstr ("t2")), ("trace_id", .vstr ("tr2")),
       ("payload", .vdict [("task_id", .vstr ("t-1")), ("approver_id", .vstr ("d")),
                           ("decision", .vbool true), ("notes", .vnone)]),
       ("signature", .vstr ("sig"))]) =
    Except.ok ⟨"m2", .APPROVAL_RESPONSE, "director", "executor", "t2", "tr2",
      [("task_id", .vstr ("t-1")), ("approver_id", .vstr ("d")),
       ("decision", .vbool true), ("notes", .vnone)], some "sig"⟩ := by
  constructor
  · exact deserialize_envelope_validation.1 _ (fun t ht => by
      rw [show PyVal.dget [("type", PyVal.vstr ("BOGUS_TYPE"))] "type" =
        .vstr ("BOGUS_TYPE") from rfl] at ht
      cases ht
      rfl)
  · exact deserialize_envelope_validation.2 _ "m2" "director" "executor" "t2"
      "tr2" "APPROVAL_RESPONSE" .APPROVAL_RESPONSE _ (some "sig")
      rfl rfl rfl rfl rfl rfl rfl rfl rfl

/-- C6: a TASK_REQUEST whose tool_id is not registered produces exactly one
published message — a failed TASK_RESULT for the same task whose error
contains "not found" — with no APPROVAL_REQUEST, no TASK_STATUS and no state
change. -/
theorem unknown_tool_single_failed_result (reg : List Tool) (agent : String)
    (st : ExecState) (m : A2AMessage) (g : Nat) (tid : String)
    (hty : m.type = .TASK_REQUEST)
    (htool : PyVal.dget m.payload "tool_id" = .vstr tid)
    (habs : get_tool reg tid = none) :
    ∃ r g2, handle_message reg agent st m g = (st, [r], g2) ∧
      r.type = .TASK_RESULT ∧
      PyVal.dget r.payload "status" = .vstr ("failed") ∧
      PyVal.dget r.payload "task_id" = PyVal.dget m.payload "task_id" ∧
      ∃ es, PyVal.dget r.payload "error" = .vstr es ∧
        List.IsInfix ("not found").data es.data := by
  simp only [handle_message, hty, handle_task_request, htool, habs, send_error]
  refine ⟨_, _, rfl, by simp [create_task_result], ?_, ?_, ?_⟩
  · simp [create_task_result, PyVal.dget]
  · simp [create_task_result, PyVal.dget]
  · refine ⟨"Tool not found: " ++ tid,
      by simp [create_task_result, PyVal.dget, optVal], ?_⟩
    refine ⟨("Tool ").data, (": " ++ tid).data, ?_⟩
    rw [String.data_append, String.data_append]
    rw [← List.append_assoc]
    congr 1

/-- C6 witness: the concrete nonexistent.tool request against an empty
registry. -/
theorem unknown_tool_single_failed_result_witness :
    get_tool [] "nonexistent.tool" = none ∧
    (∃ r g2, handle_message [] "executor.agent.v1" ⟨[]⟩ c6msg 0 = (⟨[]⟩, [r], g2) ∧
      r.type = .TASK_RESULT ∧
      PyVal.dget r.payload "status" = .vstr ("failed") ∧
      PyVal.dget r.payload "task_id" = PyVal.dget c6msg.payload "task_id" ∧
      ∃ es, PyVal.dget r.payload "error" = .vstr es ∧
        List.IsInfix ("not found").data es.data) :=
  ⟨rfl, unknown_tool_single_failed_result [] "executor.agent.v1" ⟨[]⟩ c6msg 0
    "nonexistent.tool" rfl rfl rfl⟩

/-- C10: a TASK_REQUEST for a registered tool that validates, needs no
approval, and is none of the three implemented tool ids is executed as a
success: the executor publishes a TASK_RESULT with status completed whose
outputs are the placeholder not-implemented map. -/
theorem unimplemented_tool_reports_success (reg : List Tool) (agent : String)
    (st : ExecState) (m : A2AMessage) (g : Nat) (tid : String) (tool : Tool)
    (inputs : List (String × PyVal))
    (hty : m.type = .TASK_REQUEST)
    (htool : PyVal.dget m.payload "tool_id" = .vstr tid)
    (hin : PyVal.dget m.payload "inputs" (.vdict []) = .vdict inputs)
    (hreg : get_tool reg tid = some tool)
    (happ : tool.approval_required = false)
    (hval : (validate_inputs reg tid inputs).1 = true)
    (h1 : tid ≠ "kaggle.dataset.download")
    (h2 : tid ≠ "analyzer.eda")
    (h3 : tid ≠ "executor.run_code") :
    ∃ out g2 r, handle_message reg agent st m g = (st, out, g2) ∧
      out.getLast? = some r ∧
      r.type = .TASK_RESULT ∧
      PyVal.dget r.payload "status" = .vstr ("completed") ∧
      PyVal.dget r.payload "task_id" = PyVal.dget m.payload "task_id" ∧
      PyVal.dget r.payload "outputs" =
        .vdict [("message", .vstr ("Tool " ++ tid ++ " not implemented yet"))] := by
  have htid : tool.tool_id = tid := get_tool_tool_id reg tid tool hreg
  rcases hvp : validate_inputs reg tid inputs with ⟨b, e⟩
  rw [hvp] at hval
  simp only at hval
  subst hval
  simp only [handle_message, hty, handle_task_request, htool, hin,
    PyVal.dictView, hreg, hvp, happ, if_neg Bool.false_ne_true]
  refine ⟨_, _, _, rfl, rfl, by simp [execute_tool, create_task_result], ?_, ?_, ?_⟩
  · simp [execute_tool, create_task_result, PyVal.dget]
  · simp [execute_tool, create_task_result, PyVal.dget]
  · simp [execute_tool, create_task_result, PyVal.dget, optVal, toolOutputs,
      htid, h1, h2, h3]

/-- C10 witness: a registered but unimplemented tool id is reported
completed with the placeholder outputs. -/
theorem unimplemented_tool_reports_success_witness :
    (validate_inputs [⟨"report.generate", [], [], false⟩] "report.generate" []).1 = true ∧
    (∃ out g2 r,
      handle_message [⟨"report.generate", [], [], false⟩] "executor.agent.v1" ⟨[]⟩
        ⟨"m-c10", .TASK_REQUEST, "planner.agent.v1", "executor.agent.v1", "ts", "tr-c10",
         [("task_id", .vstr ("t-c10")), ("tool_id", .vstr ("report.generate")),
          ("inputs", .vdict []), ("metadata", .vdict [])], none⟩ 0 = (⟨[]⟩, out, g2) ∧
      out.getLast? = some r ∧
      r.type = .TASK_RESULT ∧
      PyVal.dget r.payload "status" = .vstr ("completed") ∧
      PyVal.dget r.payload "task_id" =
        PyVal.dget [("task_id", PyVal.vstr ("t-c10")), ("tool_id", PyVal.vstr ("report.generate")),
          ("inputs", PyVal.vdict []), ("metadata", PyVal.vdict [])] "task_id" ∧
      PyVal.dget r.payload "outputs" =
        .vdict [("message", .vstr ("Tool report.generate not implemented yet"))]) :=
  ⟨rfl, unimplemented_tool_reports_success [⟨"report.generate", [], [], false⟩]
    "executor.agent.v1" ⟨[]⟩ _ 0 "report.generate" ⟨"report.generate", [], [], false⟩ []
    rfl rfl rfl rfl rfl rfl
    (by decide) (by decide) (by decide)⟩

theorem findMissingRequired_none_iff (specs : List (String × ParamSpec))
    (inputs : List (String × PyVal)) :
    findMissingRequired specs inputs = none ↔
      requiredPresent specs inputs = true := by
  induction specs with
  | nil => simp [findMissingRequired, requiredPresent]
  | cons hd tl ih =>
      obtain ⟨p, spec⟩ := hd
      rw [findMissingRequired]
      have hall : requiredPresent ((p, spec) :: tl) inputs =
          ((!spec.required || PyVal.dmem inputs p) && requiredPresent tl inputs) := rfl
      rw [hall]
      by_cases hr : spec.required = true <;>
        by_cases hm : PyVal.dmem inputs p = true <;>
        simp [hr, hm, ih]

theorem findBadParam_none_iff (specs : List (String × ParamSpec))
    (inputs : List (String × PyVal)) :
    findBadParam specs inputs = none ↔
      inputsDeclaredAndTyped specs inputs = true := by
  induction inputs with
  | nil => simp [findBadParam, inputsDeclaredAndTyped]
  | cons hd tl ih =>
      obtain ⟨p, v⟩ := hd
      rw [findBadParam]
      have hall : inputsDeclaredAndTyped specs ((p, v) :: tl) =
          ((match specGet specs p with
            | some spec => typeMatches spec v
            | none => false) && inputsDeclaredAndTyped specs tl) := rfl
      rw [hall]
      cases hs : specGet specs p with
      | none => simp
      | some spec =>
          by_cases h1 : (spec.ptype = some "string" && !isStrInstance v) = true <;>
            by_cases h2 : (spec.ptype = some "integer" && !isIntInstance v) = true <;>
            by_cases h3 : (spec.ptype = some "boolean" && !isBoolInstance v) = true <;>
            simp [h1, h2, h3, typeMatches, ih]

/-- C5 counterexample: a tool declaring an integer parameter accepts the
boolean True for it — validate_inputs succeeds although the runtime type of
the provided value is bool, not int, because Python bool subclasses int. -/
theorem validate_inputs_accepts_bool_for_integer :
    validate_inputs [⟨"demo.tool", [("n", ⟨some "integer", true⟩)], [], false⟩]
      "demo.tool" [("n", .vbool true)] = (true, none) ∧
    isBoolInstance (.vbool true) = true ∧
    isIntInstance (.vbool true) = true :=
  ⟨rfl, rfl, rfl⟩

/-- C5 (amended): for a registered tool, validate_inputs succeeds exactly
when every required declared parameter is present and every provided key is
declared with a value matching its declared type under Python isinstance
semantics — string and boolean checked exactly, but integer also accepting
bools; in particular it rejects every unknown key (closed check) and every
missing required parameter. -/
theorem validate_inputs_characterization (reg : List Tool) (tid : String)
    (tool : Tool) (inputs : List (String × PyVal))
    (hreg : get_tool reg tid = some tool) :
    validate_inputs reg tid inputs = (true, none) ↔
      (requiredPresent tool.inputs inputs = true ∧
       inputsDeclaredAndTyped tool.inputs inputs = true) := by
  rw [validate_inputs, hreg]
  cases hm : findMissingRequired tool.inputs inputs with
  | some p =>
      simp only [hm]
      constructor
      · intro h
        exact absurd h (by simp)
      · intro h
        exact absurd ((findMissingRequired_none_iff _ _).mpr h.1) (by simp [hm])
  | none =>
      cases hb : findBadParam tool.inputs inputs with
      | some e =>
          simp only [hm, hb]
          constructor
          · intro h
            exact absurd h (by simp)
          · intro h
            exact absurd ((findBadParam_none_iff _ _).mpr h.2) (by simp [hb])
      | none =>
          simp only [hm, hb]
          constructor
          · intro _
            exact ⟨(findMissingRequired_none_iff _ _).mp hm,
              (findBadParam_none_iff _ _).mp hb⟩
          · intro _
            trivial

/-- C5 witness: the characterization evaluated at a concrete tool with one
required integer parameter, one well-typed input map and the equivalence
instantiated. -/
theorem validate_inputs_characterization_witness :
    get_tool [⟨"demo.tool", [("n", ⟨some "integer", true⟩)], [], false⟩] "demo.tool" =
      some ⟨"demo.tool", [("n", ⟨some "integer", true⟩)], [], false⟩ ∧
    (validate_inputs [⟨"demo.tool", [("n", ⟨some "integer", true⟩)], [], false⟩]
        "demo.tool" [("n", .vint 3)] = (true, none) ↔
      (requiredPresent [("n", ⟨some "integer", true⟩)] [("n", .vint 3)] = true ∧
       inputsDeclaredAndTyped [("n", ⟨some "integer", true⟩)] [("n", .vint 3)] = true)) :=
  ⟨rfl, validate_inputs_characterization
    [⟨"demo.tool", [("n", ⟨some "integer", true⟩)], [], false⟩] "demo.tool"
    ⟨"demo.tool", [("n", ⟨some "integer", true⟩)], [], false⟩ [("n", .vint 3)] rfl⟩

/-- C2 counterexample: the inputs of c2msg violate the manifest constraint
(check_constraints rejects them), yet handling the request publishes the
running statuses and a completed TASK_RESULT — the executor never consults
check_constraints before executing. -/
theorem executor_skips_constraint_check :
    check_constraints c2reg "loader.sized" [("size_mb", .vint 100)] =
      (false, some ("Size exceeds limit: 10 MB")) ∧
    (handle_message c2reg "executor.agent.v1" ⟨[]⟩ c2msg 0).2.1.map A2AMessage.type =
      [.TASK_STATUS, .TASK_STATUS, .TASK_STATUS, .TASK_STATUS, .TASK_RESULT] ∧
    (handle_message c2reg "executor.agent.v1" ⟨[]⟩ c2msg 0).2.1.getLast? = some
      ⟨freshId 4, .TASK_RESULT, "executor.agent.v1", "planner.agent.v1", nowStamp 4, "tr-c2",
       [("task_id", .vstr ("t-c2")), ("status", .vstr ("completed")),
        ("outputs", .vdict [("message", .vstr ("Tool loader.sized not implemented yet"))]),
        ("error", .vnone), ("artifacts", .vlist [])], none⟩ :=
  ⟨rfl, rfl, rfl⟩

/-- C2 (amended): on a TASK_REQUEST for a registered tool the executor runs
validate_inputs only: a validation failure yields the single terminal failed
TASK_RESULT carrying the validation error and nothing is executed; but
check_constraints is never invoked, so inputs that violate the manifest
constraints while passing validation are executed anyway. -/
theorem executor_validates_without_constraint_check :
    (∀ (reg : List Tool) (agent : String) (st : ExecState) (m : A2AMessage)
       (g : Nat) (tid e : String) (inputs : List (String × PyVal)),
      m.type = .TASK_REQUEST →
      PyVal.dget m.payload "tool_id" = .vstr tid →
      PyVal.dget m.payload "inputs" (.vdict []) = .vdict inputs →
      (∃ tool, get_tool reg tid = some tool) →
      validate_inputs reg tid inputs = (false, some e) →
      ∃ r g2, handle_message reg agent st m g = (st, [r], g2) ∧
        r.type = .TASK_RESULT ∧
        PyVal.dget r.payload "status" = .vstr ("failed") ∧
        PyVal.dget r.payload "error" = .vstr ("Invalid inputs: " ++ e)) ∧
    (∀ (reg : List Tool) (agent : String) (st : ExecState) (m : A2AMessage)
       (g : Nat) (tid : String) (tool : Tool) (inputs : List (String × PyVal)),
      m.type = .TASK_REQUEST →
      PyVal.dget m.payload "tool_id" = .vstr tid →
      PyVal.dget m.payload "inputs" (.vdict []) = .vdict inputs →
      get_tool reg tid = some tool →
      tool.approval_required = false →
      (validate_inputs reg tid inputs).1 = true →
      (check_constraints reg tid inputs).1 = false →
      handle_message reg agent st m g =
        (st, (execute_tool agent m tool inputs g).1,
         (execute_tool agent m tool inputs g).2)) := by
  constructor
  · intro reg agent st m g tid e inputs hty htool hin hex hval
    obtain ⟨tool, hreg⟩ := hex
    simp only [handle_message, hty, handle_task_request, htool, hin,
      PyVal.dictView, hreg, hval]
    refine ⟨_, _, rfl, by simp [send_error, create_task_result], ?_, ?_⟩
    · simp [send_error, create_task_result, PyVal.dget]
    · simp [send_error, create_task_result, PyVal.dget, optVal, Option.getD]
  · intro reg agent st m g tid tool inputs hty htool hin hreg happ hval hcon
    rcases hvp : validate_inputs reg tid inputs with ⟨b, e⟩
    rw [hvp] at hval
    simp only at hval
    subst hval
    simp only [handle_message, hty, handle_task_request, htool, hin,
      PyVal.dictView, hreg, hvp, happ, if_neg Bool.false_ne_true]

/-- C2 witness: the two branches of the amended theorem at concrete inputs —
a type-invalid request rejected without execution, and the
constraint-violating c2msg executed despite check_constraints failing. -/
theorem executor_validates_without_constraint_check_witness :
    (∃ r g2, handle_message c2reg "executor.agent.v1" ⟨[]⟩ c2badmsg 0 = (⟨[]⟩, [r], g2) ∧
      r.type = .TASK_RESULT ∧
      PyVal.dget r.payload "status" = .vstr ("failed") ∧
      PyVal.dget r.payload "error" =
        .vstr ("Invalid inputs: " ++ "Parameter size_mb must be integer")) ∧
    handle_message c2reg "executor.agent.v1" ⟨[]⟩ c2msg 0 =
      (⟨[]⟩, (execute_tool "executor.agent.v1" c2msg
        ⟨"loader.sized", [("size_mb", ⟨some "integer", true⟩)],
         [("max_size_mb", .vint 10)], false⟩ [("size_mb", .vint 100)] 0).1,
       (execute_tool "executor.agent.v1" c2msg
        ⟨"loader.sized", [("size_mb", ⟨some "integer", true⟩)],
         [("max_size_mb", .vint 10)], false⟩ [("size_mb", .vint 100)] 0).2) :=
  ⟨executor_validates_without_constraint_check.1 c2reg "executor.agent.v1" ⟨[]⟩
      c2badmsg 0 "loader.sized" "Parameter size_mb must be integer"
      [("size_mb", .vstr ("big"))] rfl rfl rfl ⟨_, rfl⟩ rfl,
   executor_validates_without_constraint_check.2 c2reg "executor.agent.v1" ⟨[]⟩
      c2msg 0 "loader.sized"
      ⟨"loader.sized", [("size_mb", ⟨some "integer", true⟩)],
       [("max_size_mb", .vint 10)], false⟩ [("size_mb", .vint 100)]
      rfl rfl rfl rfl rfl rfl rfl⟩

/-- C3 counterexample: an oracle response with no JSON content makes
create_plan return the zero-step error plan, not the heuristic fallback
(whose step list is never empty); and a partially-JSON response whose first
balanced brace span is parseable still yields the error plan, because the
extraction window runs from the first opening brace to the last closing
brace. -/
theorem create_plan_unparseable_gives_empty_plan :
    create_plan (some (Except.ok ("I cannot produce a plan.")))
      ("analyze my data") ("u1") = errorPlan ∧
    PyVal.dget (PyVal.dictView errorPlan) "steps" = .vlist [] ∧
    PyVal.dget (PyVal.dictView (create_fallback_plan ("analyze my data") ("u1"))) "steps" =
      .vlist [.vdict [("step_id", .vstr ("s1")), ("tool_id", .vstr ("kaggle.dataset.download")),
        ("description", .vstr ("Download dataset")),
        ("inputs", .vdict [("dataset_ref", .vstr ("example/dataset"))]),
        ("depends_on", .vlist [])],
       .vdict [("step_id", .vstr ("s2")), ("tool_id", .vstr ("analyzer.eda")),
        ("description", .vstr ("Perform exploratory data analysis")),
        ("inputs", .vdict [("dataset_path", .vstr ("/data/dataset.csv"))]),
        ("depends_on", .vlist [.vstr ("s1")])]] ∧
    parse_plan_response ("pre \x7b\x22plan_id\x22: \x22p\x22, \x22steps\x22: []\x7d post \x7d") =
      errorPlan ∧
    (jsonLoads ("\x7b\x22plan_id\x22: \x22p\x22, \x22steps\x22: []\x7d").data).isSome = true :=
  ⟨rfl, rfl, rfl, rfl, rfl⟩

/-- C3 (amended): create_plan returns the heuristic fallback plan — which
always contains at least one step — when no oracle model is configured or
the oracle call raises; with a configured oracle it returns the parsed
response, and a response text containing no opening brace parses to the
zero-step error plan rather than the fallback. -/
theorem create_plan_fallback_behavior :
    (∀ q u, create_plan none q u = create_fallback_plan q u) ∧
    (∀ q u, create_plan (some (Except.error ())) q u = create_fallback_plan q u) ∧
    (∀ q u t, create_plan (some (Except.ok t)) q u = parse_plan_response t) ∧
    (∀ q u, ∃ steps : List PyVal,
      PyVal.dget (PyVal.dictView (create_fallback_plan q u)) "steps" = .vlist steps ∧
      1 ≤ steps.length) ∧
    (∀ t : String, firstIdx t.data '{' = none → parse_plan_response t = errorPlan) := by
  refine ⟨fun q u => rfl, fun q u => rfl, fun q u t => rfl, ?_, ?_⟩
  · intro q u
    rw [create_fallback_plan]
    by_cases h : (containsSub (lowerStr q) "dataset" || containsSub (lowerStr q) "data") = true <;>
      simp [h, PyVal.dictView, PyVal.dget]
  · intro t h
    rw [parse_plan_response]
    simp only [h]

/-- C3 witness: the amended theorem instantiated at a concrete query for the
no-model fallback, the fallback step-count bound, and a concrete
brace-free response text. -/
theorem create_plan_fallback_behavior_witness :
    create_plan none ("summarize results") ("u2") =
      create_fallback_plan ("summarize results") ("u2") ∧
    (∃ steps : List PyVal,
      PyVal.dget (PyVal.dictView (create_fallback_plan ("summarize results") ("u2"))) "steps" =
        .vlist steps ∧ 1 ≤ steps.length) ∧
    parse_plan_response ("no plan available") = errorPlan :=
  ⟨create_plan_fallback_behavior.1 "summarize results" "u2",
   create_plan_fallback_behavior.2.2.2.1 "summarize results" "u2",
   create_plan_fallback_behavior.2.2.2.2 "no plan available" rfl⟩

theorem send_error_trace (agent : String) (m : A2AMessage) (err : String)
    (g : Nat) (h : m.trace_id ≠ "") :
    ∀ r ∈ (send_error agent m err g).1, r.trace_id = m.trace_id := by
  intro r hr
  simp only [send_error, create_task_result, List.mem_singleton] at hr
  subst hr
  exact createMessage_trace _ _ _ _ _ _ h

theorem execute_tool_trace (agent : String) (m : A2AMessage) (tool : Tool)
    (inputs : List (String × PyVal)) (g : Nat) (h : m.trace_id ≠ "") :
    ∀ r ∈ (execute_tool agent m tool inputs g).1, r.trace_id = m.trace_id := by
  intro r hr
  simp only [execute_tool, create_task_status, create_task_result,
    List.mem_cons, List.mem_singleton, List.not_mem_nil, or_false] at hr
  rcases hr with h1 | h1 | h1 | h1 | h1 <;> subst h1 <;>
    exact createMessage_trace _ _ _ _ _ _ h

theorem request_approval_trace (agent : String) (m : A2AMessage) (tool : Tool)
    (st : ExecState) (g : Nat) (h : m.trace_id ≠ "") :
    ∀ r ∈ (request_approval agent m tool st g).2.1, r.trace_id = m.trace_id := by
  intro r hr
  simp only [request_approval, List.mem_singleton] at hr
  subst hr
  exact createMessage_trace _ _ _ _ _ _ h

/-- C9 counterexample: a TASK_REQUEST whose trace_id is the empty string —
empty strings are falsy in Python, so trace_id or uuid4() draws fresh ids —
produces derived messages whose trace ids are all freshly generated rather
than the original empty trace_id. -/
theorem trace_id_empty_replaced :
    c9msg.trace_id = "" ∧
    (handle_message c9reg "executor.agent.v1" ⟨[]⟩ c9msg 0).2.1.map A2AMessage.trace_id =
      [freshId 1, freshId 3, freshId 5, freshId 7, freshId 9] ∧
    freshId 1 ≠ "" :=
  ⟨rfl, rfl, by decide⟩

/-- C9 (amended): every message the executor publishes while handling a
TASK_REQUEST carries the trace_id of that request unchanged whenever it is
non-empty, and every message published while resolving a parked approval
carries the trace_id of the parked originating request unchanged whenever it
is non-empty; an empty originating trace_id is falsy in Python and is
replaced by a fresh id in each derived message. -/
theorem trace_id_propagation_nonempty :
    (∀ (reg : List Tool) (agent : String) (st : ExecState) (m : A2AMessage) (g : Nat),
      m.type = .TASK_REQUEST → m.trace_id ≠ "" →
      ∀ r ∈ (handle_message reg agent st m g).2.1, r.trace_id = m.trace_id) ∧
    (∀ (reg : List Tool) (agent : String) (st : ExecState) (m : A2AMessage)
       (g : Nat) (info : ParkedTask),
      m.type = .APPROVAL_RESPONSE →
      taskLookup st.running_tasks (PyVal.dget m.payload "task_id") = some info →
      info.message.trace_id ≠ "" →
      ∀ r ∈ (handle_message reg agent st m g).2.1,
        r.trace_id = info.message.trace_id) := by
  constructor
  · intro reg agent st m g hty htr r hr
    simp only [handle_message, hty, handle_task_request] at hr
    rcases hdt : PyVal.dget m.payload "tool_id" with _ | b | n | q | tid | xs | kvs <;>
      simp only [hdt] at hr
    case vstr =>
      rcases hgt : get_tool reg tid with _ | tool <;> simp only [hgt] at hr
      · exact send_error_trace _ _ _ _ htr r hr
      · rcases hv : validate_inputs reg tid
          (PyVal.dictView (PyVal.dget m.payload "inputs" (.vdict []))) with ⟨b, e⟩
        rw [hv] at hr
        cases b
        · simp only at hr
          exact send_error_trace _ _ _ _ htr r hr
        · simp only at hr
          cases happ : tool.approval_required <;> simp only [happ] at hr
          · simp only [Bool.false_eq_true, if_false] at hr
            exact execute_tool_trace _ _ _ _ _ htr r hr
          · simp only [if_true] at hr
            exact request_approval_trace _ _ _ _ _ htr r hr
    all_goals exact send_error_trace _ _ _ _ htr r hr
  · intro reg agent st m g info hty hlook htr r hr
    simp only [handle_message, hty, handle_approval_response, hlook] at hr
    cases hdec : PyVal.truthy (PyVal.dget m.payload "decision") <;>
      simp only [hdec] at hr
    · simp only [Bool.false_eq_true, if_false, List.mem_singleton] at hr
      subst hr
      exact createMessage_trace _ _ _ _ _ _ htr
    · simp only [if_true] at hr
      exact execute_tool_trace _ _ _ _ _ htr r hr

/-- C9 witness: the amended theorem for a concrete request with the
non-empty trace tr-c9: every published message carries it unchanged. -/
theorem trace_id_propagation_nonempty_witness :
    c9bmsg.trace_id ≠ "" ∧
    (∀ r ∈ (handle_message c9reg "executor.agent.v1" ⟨[]⟩ c9bmsg 0).2.1,
      r.trace_id = c9bmsg.trace_id) :=
  ⟨by decide, trace_id_propagation_nonempty.1 c9reg "executor.agent.v1" ⟨[]⟩
    c9bmsg 0 rfl (by decide)⟩

theorem beqVal_vstr_true {a : PyVal} {s : String}
    (h : beqVal a (.vstr s) = true) : a = .vstr s := by
  cases a <;> simp_all [beqVal]

theorem beqVal_vstr_left {s : String} {b : PyVal}
    (h : beqVal (.vstr s) b = true) : b = .vstr s := by
  cases b <;> simp_all [beqVal]

theorem taskLookup_mem {tbl : List (PyVal × ParkedTask)} {k : PyVal}
    {info : ParkedTask} (h : taskLookup tbl k = some info) :
    ∃ k2, (k2, info) ∈ tbl ∧ beqVal k2 k = true := by
  induction tbl with
  | nil => simp [taskLookup] at h
  | cons hd tl ih =>
      obtain ⟨hk, hv⟩ := hd
      rw [taskLookup] at h
      by_cases hb : beqVal hk k = true
      · rw [if_pos hb] at h
        refine ⟨hk, ?_, hb⟩
        simp only [Option.some.injEq] at h
        subst h
        exact List.mem_cons_self _ _
      · rw [if_neg hb] at h
        obtain ⟨k2, hmem, hbeq⟩ := ih h
        exact ⟨k2, List.mem_cons_of_mem _ hmem, hbeq⟩

theorem mem_taskInsert {tbl : List (PyVal × ParkedTask)} {k2 : PyVal}
    {info : ParkedTask} {tk : PyVal} {v : ParkedTask}
    (h : (k2, info) ∈ taskInsert tbl tk v) :
    (k2, info) ∈ tbl ∨ (info = v ∧ (k2 = tk ∨ beqVal k2 tk = true)) := by
  induction tbl with
  | nil =>
      simp only [taskInsert, List.mem_singleton, Prod.mk.injEq] at h
      exact Or.inr ⟨h.2, Or.inl h.1⟩
  | cons hd tl ih =>
      obtain ⟨hk, hv⟩ := hd
      rw [taskInsert] at h
      by_cases hb : beqVal hk tk = true
      · rw [if_pos hb] at h
        rcases List.mem_cons.mp h with heq | hmem
        · obtain ⟨e1, e2⟩ := Prod.mk.injEq .. ▸ heq
          subst e1
          exact Or.inr ⟨e2, Or.inr hb⟩
        · exact Or.inl (List.mem_cons_of_mem _ hmem)
      · rw [if_neg hb] at h
        rcases List.mem_cons.mp h with heq | hmem
        · exact Or.inl (heq ▸ List.mem_cons_self _ _)
        · rcases ih hmem with h1 | h2
          · exact Or.inl (List.mem_cons_of_mem _ h1)
          · exact Or.inr h2

theorem mem_taskErase {tbl : List (PyVal × ParkedTask)} {k2 : PyVal}
    {info : ParkedTask} {k : PyVal}
    (h : (k2, info) ∈ taskErase tbl k) : (k2, info) ∈ tbl := by
  induction tbl with
  | nil => simp [taskErase] at h
  | cons hd tl ih =>
      obtain ⟨hk, hv⟩ := hd
      rw [taskErase] at h
      by_cases hb : beqVal hk k = true
      · rw [if_pos hb] at h
        exact List.mem_cons_of_mem _ h
      · rw [if_neg hb] at h
        rcases List.mem_cons.mp h with heq | hmem
        · exact heq ▸ List.mem_cons_self _ _
        · exact List.mem_cons_of_mem _ (ih hmem)

theorem send_error_shape (agent : String) (m : A2AMessage) (err : String)
    (g : Nat) :
    ∀ r ∈ (send_error agent m err g).1,
      r.type = .TASK_RESULT ∧
      PyVal.dget r.payload "task_id" = PyVal.dget m.payload "task_id" := by
  intro r hr
  simp only [send_error, create_task_result, List.mem_singleton] at hr
  subst hr
  exact ⟨by simp, by simp [PyVal.dget]⟩

theorem execute_tool_shape (agent : String) (m : A2AMessage) (tool : Tool)
    (inputs : List (String × PyVal)) (g : Nat) :
    ∀ r ∈ (execute_tool agent m tool inputs g).1,
      r.type = .TASK_STATUS ∨
      (r.type = .TASK_RESULT ∧
       PyVal.dget r.payload "task_id" = PyVal.dget m.payload "task_id") := by
  intro r hr
  simp only [execute_tool, create_task_status, create_task_result,
    List.mem_cons, List.mem_singleton, List.not_mem_nil, or_false] at hr
  rcases hr with h | h | h | h | h <;> subst h
  · left; simp
  · left; simp
  · left; simp
  · left; simp
  · right; exact ⟨by simp, by simp [PyVal.dget]⟩

theorem step_no_result_for (reg : List Tool) (agent t : String) (st : ExecState)
    (m : A2AMessage) (g : Nat)
    (hm1 : m.type = .TASK_REQUEST → PyVal.dget m.payload "task_id" = .vstr t →
      ∃ tid tool inputs, PyVal.dget m.payload "tool_id" = .vstr tid ∧
        get_tool reg tid = some tool ∧ tool.approval_required = true ∧
        PyVal.dget m.payload "inputs" (.vdict []) = .vdict inputs ∧
        (validate_inputs reg tid inputs).1 = true)
    (hm2 : m.type = .APPROVAL_RESPONSE → PyVal.dget m.payload "task_id" ≠ .vstr t)
    (hJ : parkedConsistent t st.running_tasks) :
    noResultFor t (handle_message reg agent st m g).2.1 ∧
    parkedConsistent t (handle_message reg agent st m g).1.running_tasks := by
  cases hty : m.type
  case TASK_REQUEST =>
    simp only [handle_message, hty, handle_task_request]
    by_cases htk : PyVal.dget m.payload "task_id" = .vstr t
    · obtain ⟨tid, tool, inputs, h1, h2, h3, h4, h5⟩ := hm1 hty htk
      rcases hvp : validate_inputs reg tid inputs with ⟨b, e⟩
      rw [hvp] at h5
      simp only at h5
      subst h5
      have hdv : PyVal.dictView (PyVal.dget m.payload "inputs" (.vdict [])) = inputs := by
        rw [h4]
        rfl
      simp only [h1, hdv, h2, hvp, h3, if_true]
      constructor
      · intro r hr hres
        simp only [request_approval, List.mem_singleton] at hr
        subst hr
        simp at hres
      · intro k info hmem heq
        simp only [request_approval] at hmem
        rcases mem_taskInsert hmem with hold | ⟨hinfo, hkey⟩
        · exact hJ k info hold heq
        · rcases hkey with hkeq | hbeq
          · rw [hkeq, htk]
          · rw [htk] at hbeq
            exact beqVal_vstr_true hbeq
    · have hsend : ∀ (err : String) (g0 : Nat),
          noResultFor t (send_error agent m err g0).1 := by
        intro err g0 r hr hres hcon
        obtain ⟨_, hid⟩ := send_error_shape agent m err g0 r hr
        rw [hid] at hcon
        exact htk hcon
      have hexec : ∀ (tool : Tool) (inputs : List (String × PyVal)) (g0 : Nat),
          noResultFor t (execute_tool agent m tool inputs g0).1 := by
        intro tool inputs g0 r hr hres hcon
        rcases execute_tool_shape agent m tool inputs g0 r hr with hstat | ⟨_, hid⟩
        · rw [hstat] at hres
          cases hres
        · rw [hid] at hcon
          exact htk hcon
      rcases hdt : PyVal.dget m.payload "tool_id" with _ | b | n | q | tid | xs | kvs <;>
        simp only [hdt]
      · exact ⟨hsend _ _, hJ⟩
      · exact ⟨hsend _ _, hJ⟩
      · exact ⟨hsend _ _, hJ⟩
      · exact ⟨hsend _ _, hJ⟩
      · rcases hgt : get_tool reg tid with _ | tool <;> simp only [hgt]
        · exact ⟨hsend _ _, hJ⟩
        · rcases hvp : validate_inputs reg tid
            (PyVal.dictView (PyVal.dget m.payload "inputs" (.vdict []))) with ⟨b, e⟩
          cases b
          · simp only [hvp]
            exact ⟨hsend _ _, hJ⟩
          · simp only [hvp]
            cases happ : tool.approval_required
            · simp only [happ, Bool.false_eq_true, if_false]
              exact ⟨hexec _ _ _, hJ⟩
            · simp only [happ, if_true]
              constructor
              · intro r hr hres
                simp only [request_approval, List.mem_singleton] at hr
                subst hr
                simp at hres
              · intro k info hmem heq
                simp only [request_approval] at hmem
                rcases mem_taskInsert hmem with hold | ⟨hinfo, hkey⟩
                · exact hJ k info hold heq
                · subst hinfo
                  exact absurd heq htk
      · exact ⟨hsend _ _, hJ⟩
      · exact ⟨hsend _ _, hJ⟩
  case APPROVAL_RESPONSE =>
    have hrt := hm2 hty
    simp only [handle_message, hty, handle_approval_response]
    rcases hlook : taskLookup st.running_tasks (PyVal.dget m.payload "task_id")
      with _ | info <;> simp only [hlook]
    · exact ⟨fun r hr => absurd hr (List.not_mem_nil r), hJ⟩
    · obtain ⟨k, hmem, hbeq⟩ := taskLookup_mem hlook
      have hne : PyVal.dget info.message.payload "task_id" ≠ .vstr t := by
        intro he
        have hk := hJ k info hmem he
        subst hk
        exact hrt (beqVal_vstr_left hbeq)
      have hJ2 : parkedConsistent t
          (taskErase st.running_tasks (PyVal.dget m.payload "task_id")) :=
        fun k2 i2 hm2e he => hJ k2 i2 (mem_taskErase hm2e) he
      cases hdec : PyVal.truthy (PyVal.dget m.payload "decision")
      case false =>
        simp only [hdec, Bool.false_eq_true, if_false]
        constructor
        · intro r hr hres hcon
          simp only [create_task_result, List.mem_singleton] at hr
          subst hr
          simp [PyVal.dget] at hcon
          exact hrt hcon
        · exact hJ2
      case true =>
        simp only [hdec, if_true]
        constructor
        · intro r hr hres hcon
          rcases execute_tool_shape agent info.message info.tool _ g r hr
            with hstat | ⟨_, hid⟩
          · rw [hstat] at hres
            cases hres
          · rw [hid] at hcon
            exact hne hcon
        · exact hJ2
  all_goals
    simp only [handle_message, hty]
    exact ⟨fun r hr => absurd hr (List.not_mem_nil r), hJ⟩

theorem execRun_no_result_for (reg : List Tool) (agent t : String) :
    ∀ (ms : List A2AMessage) (st : ExecState) (g : Nat),
      (∀ m ∈ ms, m.type = .TASK_REQUEST → PyVal.dget m.payload "task_id" = .vstr t →
        ∃ tid tool inputs, PyVal.dget m.payload "tool_id" = .vstr tid ∧
          get_tool reg tid = some tool ∧ tool.approval_required = true ∧
          PyVal.dget m.payload "inputs" (.vdict []) = .vdict inputs ∧
          (validate_inputs reg tid inputs).1 = true) →
      (∀ m ∈ ms, m.type = .APPROVAL_RESPONSE →
        PyVal.dget m.payload "task_id" ≠ .vstr t) →
      parkedConsistent t st.running_tasks →
      noResultFor t (execRun reg agent st g ms).2.1 := by
  intro ms
  induction ms with
  | nil =>
      intro st g _ _ _ r hr
      simp [execRun] at hr
  | cons m ms ih =>
      intro st g H1 H2 hJ
      obtain ⟨hstep, hJ2⟩ := step_no_result_for reg agent t st m g
        (H1 m (List.mem_cons_self _ _)) (H2 m (List.mem_cons_self _ _)) hJ
      have hrest := ih (handle_message reg agent st m g).1
        (handle_message reg agent st m g).2.2
        (fun m2 hm => H1 m2 (List.mem_cons_of_mem _ hm))
        (fun m2 hm => H2 m2 (List.mem_cons_of_mem _ hm)) hJ2
      intro r hr hres
      simp only [execRun, List.mem_append] at hr
      rcases hr with h | h
      · exact hstep r h hres
      · exact hrest r h hres

/-- C1 (amended): over any incoming trace in which every TASK_REQUEST for
task id t resolves to a registered approval-required tool with validating
inputs, and no APPROVAL_RESPONSE for t is ever received (of either
decision), the executor run publishes no TASK_RESULT for t at all; and
handling such a TASK_REQUEST parks the task keyed by its task_id and
publishes exactly one APPROVAL_REQUEST addressed to the director agent,
carrying the request trace_id unchanged whenever it is non-empty. A
TASK_RESULT for t can appear before any APPROVAL_RESPONSE with decision
true only as the rejection of an APPROVAL_RESPONSE with decision false. -/
theorem approval_gate_parks_until_response :
    (∀ (reg : List Tool) (agent t : String) (ms : List A2AMessage) (g : Nat),
      (∀ m ∈ ms, m.type = .TASK_REQUEST → PyVal.dget m.payload "task_id" = .vstr t →
        ∃ tid tool inputs, PyVal.dget m.payload "tool_id" = .vstr tid ∧
          get_tool reg tid = some tool ∧ tool.approval_required = true ∧
          PyVal.dget m.payload "inputs" (.vdict []) = .vdict inputs ∧
          (validate_inputs reg tid inputs).1 = true) →
      (∀ m ∈ ms, m.type = .APPROVAL_RESPONSE →
        PyVal.dget m.payload "task_id" ≠ .vstr t) →
      ∀ r ∈ (execRun reg agent ⟨[]⟩ g ms).2.1, r.type = .TASK_RESULT →
        PyVal.dget r.payload "task_id" ≠ .vstr t) ∧
    (∀ (reg : List Tool) (agent : String) (st : ExecState) (m : A2AMessage)
       (g : Nat) (tid : String) (tool : Tool) (inputs : List (String × PyVal)),
      m.type = .TASK_REQUEST →
      PyVal.dget m.payload "tool_id" = .vstr tid →
      PyVal.dget m.payload "inputs" (.vdict []) = .vdict inputs →
      get_tool reg tid = some tool →
      tool.approval_required = true →
      (validate_inputs reg tid inputs).1 = true →
      ∃ a g2, handle_message reg agent st m g =
        (⟨taskInsert st.running_tasks (PyVal.dget m.payload "task_id")
           ⟨m, tool, "awaiting_approval"⟩⟩, [a], g2) ∧
        a.type = .APPROVAL_REQUEST ∧ a.to_agent = "director" ∧
        (m.trace_id ≠ "" → a.trace_id = m.trace_id)) := by
  constructor
  · intro reg agent t ms g H1 H2
    exact execRun_no_result_for reg agent t ms ⟨[]⟩ g H1 H2
      (fun k info h => absurd h (List.not_mem_nil _))
  · intro reg agent st m g tid tool inputs hty htool hin hreg happ hval
    rcases hvp : validate_inputs reg tid inputs with ⟨b, e⟩
    rw [hvp] at hval
    simp only at hval
    subst hval
    have hdv : PyVal.dictView (PyVal.dget m.payload "inputs" (.vdict [])) = inputs := by
      rw [hin]
      rfl
    simp only [handle_message, hty, handle_task_request, htool, hdv, hreg,
      hvp, happ, if_true]
    refine ⟨_, _, rfl, by simp [request_approval], by simp [request_approval], ?_⟩
    intro htr
    exact createMessage_trace _ _ _ _ _ _ htr

/-- C1 counterexample: a denied approval publishes a TASK_RESULT (status
rejected) for the parked task although no APPROVAL_RESPONSE with decision
true was ever received — only an APPROVAL_REQUEST precedes it. -/
theorem approval_gate_rejected_result_without_approval :
    (execRun c1reg "executor.agent.v1" ⟨[]⟩ 0 [c1req, c1resp]).2.1.map A2AMessage.type =
      [.APPROVAL_REQUEST, .TASK_RESULT] ∧
    (execRun c1reg "executor.agent.v1" ⟨[]⟩ 0 [c1req, c1resp]).2.1.getLast? = some
      ⟨freshId 1, .TASK_RESULT, "executor.agent.v1", "planner.agent.v1", nowStamp 1,
       "tr-c1",
       [("task_id", .vstr ("t-c1")), ("status", .vstr ("rejected")),
        ("outputs", .vnone), ("error", .vstr ("Approval denied")),
        ("artifacts", .vlist [])], none⟩ ∧
    c1req.type = .TASK_REQUEST ∧ c1resp.type = .APPROVAL_RESPONSE ∧
    PyVal.dget c1resp.payload "decision" = .vbool false ∧
    PyVal.truthy (PyVal.dget c1resp.payload "decision") = false :=
  ⟨rfl, rfl, rfl, rfl, rfl, rfl⟩

/-- C1 witness: the amended theorem applied to the concrete
approval-required request (parking branch) and to the singleton trace
containing only that request (no result published at all). -/
theorem approval_gate_parks_until_response_witness :
    (∃ a g2, handle_message c1reg "executor.agent.v1" ⟨[]⟩ c1req 0 =
      (⟨taskInsert [] (PyVal.dget c1req.payload "task_id")
         ⟨c1req, ⟨"executor.run_code", [], [], true⟩, "awaiting_approval"⟩⟩, [a], g2) ∧
      a.type = .APPROVAL_REQUEST ∧ a.to_agent = "director" ∧
      (c1req.trace_id ≠ "" → a.trace_id = c1req.trace_id)) :=
  approval_gate_parks_until_response.2 c1reg "executor.agent.v1" ⟨[]⟩ c1req 0
    "executor.run_code" ⟨"executor.run_code", [], [], true⟩ []
    rfl rfl rfl rfl rfl rfl

end A2A
